import Mathlib

/-!
# Verification of the SNS analysis tool front-end (static/js)

Shallow embedding of `src/static/js/main.js` and `src/static/js/dashboard.js`.

Modelling conventions:
* Every JavaScript number this front-end handles (counts, engagement
  percentages) is a non-negative exact decimal.  We model such a number as a
  scaled natural: `JsNum.mk man exp` denotes the value `man / 10 ^ exp`.
  `numStr` models the JavaScript number-to-string conversion on these values
  (shortest decimal form, no trailing zeros, no point for integers) and
  `toFixedStr` models `Number.prototype.toFixed` (round to nearest with `d`
  digits after the point, ties towards the larger value, as ECMA-262
  specifies for non-negative arguments).
* A JSON field that may be `undefined` is modelled as an `Option`.
  JavaScript truthiness (`x || d`, `x ? a : b`) treats both `undefined` and
  `0` as falsy, which the helpers below reproduce.
* The divisions `num / 1000` and `num / 1000000` inside `formatNumber` are
  performed by JavaScript in IEEE-754 binary64 arithmetic.  `doubleDiv`
  models that division exactly: the quotient is rounded to 53 significant
  bits with ties to even, and `divToFixed1` then applies the ECMA-262
  `toFixed(1)` rounding (nearest, ties pick the larger candidate) to the
  resulting double.  Thus `4050/1000` is the double
  `4.04999999999999982…`, and `(4050/1000).toFixed(1)` renders `"4.0"`,
  not `"4.1"`.
* The CSV strings built by `exportToCSV` / `exportData` are sequences of
  `'\n'`-terminated lines (`csv = 'line\n'; csv += 'line\n'; ...`); we model
  the same string as the list of its lines (`csvLines…`) together with the
  rendering `csvContent` that re-attaches one `'\n'` to each line, which
  reproduces the source string byte for byte.
-/

/-- A non-negative exact decimal JavaScript number: `man / 10 ^ exp`.
The representation is not required to be trailing-zero free; `numStr`
normalises when printing, exactly as JavaScript prints the shortest decimal
form of a value. -/
structure JsNum where
  man : Nat
  exp : Nat
deriving Repr, DecidableEq

/-- The rational value denoted by a `JsNum`. -/
def JsNum.val (q : JsNum) : ℚ :=
  (q.man : ℚ) / 10 ^ q.exp

/-- The integer `n` as a `JsNum`. -/
def JsNum.ofNat (n : Nat) : JsNum :=
  ⟨n, 0⟩

/-- Zero-pad a digit string on the left to width `d`
(used for the fractional part of a fixed-point rendering). -/
def zeroPad (s : String) (d : Nat) : String :=
  if s.length < d then String.mk (List.replicate (d - s.length) '0') ++ s else s

/-- Render the natural number `m` scaled by `10 ^ (-d)` (with `0 < d`) as a
decimal string: integer part, point, `d` fractional digits. -/
def fixedDigits (m : Nat) (d : Nat) : String :=
  toString (m / 10 ^ d) ++ "." ++ zeroPad (toString (m % 10 ^ d)) d

/-- Drop trailing decimal zeros: `stripZeros m e` rewrites `m / 10 ^ e`
into an equal pair with no redundant trailing zero digits. -/
def stripZeros : Nat → Nat → Nat × Nat
  | m, 0 => (m, 0)
  | m, e + 1 => if m % 10 = 0 then stripZeros (m / 10) e else (m, e + 1)

/-- Model of JavaScript number-to-string conversion on non-negative exact
decimals: shortest decimal representation (`12.345 ↦ "12.345"`,
`⟨50, 2⟩ = 0.50 ↦ "0.5"`, `5 ↦ "5"`). -/
def numStr (q : JsNum) : String :=
  let p := stripZeros q.man q.exp
  if p.2 = 0 then toString p.1 else fixedDigits p.1 p.2

/-- The value of `q` rounded to `d` decimal places, returned scaled by
`10 ^ d` (round to nearest, ties upward — the larger candidate, as
ECMA-262 `toFixed` chooses). -/
def roundToFixed (q : JsNum) (d : Nat) : Nat :=
  if q.exp ≤ d then q.man * 10 ^ (d - q.exp)
  else (2 * q.man + 10 ^ (q.exp - d)) / (2 * 10 ^ (q.exp - d))

/-- Model of `Number.prototype.toFixed(d)` on non-negative exact decimals:
exactly `d` digits after the point. -/
def toFixedStr (q : JsNum) (d : Nat) : String :=
  if d = 0 then toString (roundToFixed q d) else fixedDigits (roundToFixed q d) d

/-- JavaScript `x || dflt` on an optional number: `undefined` and `0` are
falsy. -/
def jsOrNum (x : Option JsNum) (dflt : JsNum) : JsNum :=
  match x with
  | none => dflt
  | some v => if v.man = 0 then dflt else v

/-- JavaScript truthiness of an optional number (`x ? _ : _`). -/
def jsTruthyNum (x : Option JsNum) : Bool :=
  match x with
  | none => false
  | some v => !(v.man == 0)

/-- JavaScript falsiness of an optional string (`!s`): `undefined` and the
empty string are falsy. -/
def jsFalsyStr (s : Option String) : Bool :=
  match s with
  | none => true
  | some v => v == ""

/-- Floor of the base-2 logarithm, by structural fuel recursion (so the
kernel can evaluate it). -/
def log2fuel : Nat → Nat → Nat
  | 0, _ => 0
  | f + 1, n => if n ≤ 1 then 0 else log2fuel f (n / 2) + 1

/-- `a / b` rounded to the nearest integer, ties to even — the IEEE-754
default rounding used when a quotient is fitted to 53 significant bits. -/
def roundEven (a b : Nat) : Nat :=
  if 2 * (a % b) < b then a / b
  else if b < 2 * (a % b) then a / b + 1
  else if (a / b) % 2 = 0 then a / b else a / b + 1

/-- The IEEE-754 binary64 value nearest to `n / q` (for `q ≤ n`, so the
quotient is at least 1), returned as a dyadic pair `(m, s)` denoting
`m / 2 ^ s`: with `e = ⌊log₂ (n/q)⌋` the significand is the quotient
scaled to `[2^52, 2^53]` and rounded to an integer with ties to even. -/
def doubleDiv (n q : Nat) : Nat × Nat :=
  let e := log2fuel 64 (n / q)
  if e ≤ 52 then (roundEven (n * 2 ^ (52 - e)) q, 52 - e)
  else (roundEven n (q * 2 ^ (e - 52)) * 2 ^ (e - 52), 0)

/-- `(n/q).toFixed(1)` where the division is done in binary64: the double
`v = m / 2^s`, rendered to one decimal, is the tenths count
`⌊10·v + 1/2⌋` (nearest, ties pick the larger candidate, as ECMA-262
specifies). -/
def divToFixed1 (n q : Nat) : Nat :=
  let p := doubleDiv n q
  (20 * p.1 + 2 ^ p.2) / 2 ^ (p.2 + 1)

/-- Render a number of tenths as a one-decimal string (`25 ↦ "2.5"`) —
the digits `toFixed(1)` produces. -/
def tenthStr (m : Nat) : String :=
  toString (m / 10) ++ "." ++ toString (m % 10)

/-- Does the first character list start with the second? -/
def headMatches : List Char → List Char → Bool
  | _, [] => true
  | [], _ :: _ => false
  | a :: as, b :: bs => a == b && headMatches as bs

/-- Does `pat` occur somewhere in `s`? -/
def hasSubAux (pat : List Char) : List Char → Bool
  | [] => headMatches [] pat
  | c :: cs => headMatches (c :: cs) pat || hasSubAux pat cs

/-- Does `pat` occur in `s` as a substring? -/
def containsSub (s pat : String) : Bool :=
  hasSubAux pat.data s.data

/-- Does the string render a value with exactly two decimal digits followed
by a trailing `%` — the format the spec prescribes for exported
percentages? -/
def twoDecimalPercent (s : String) : Bool :=
  match s.data.reverse with
  | '%' :: a :: b :: '.' :: _ => a.isDigit && b.isDigit
  | _ => false

/-! ## Wire data model

The JSON object the backend returns and both scripts consume
(`data.stats`, `data.engagement_data`, `data.timing_data`). -/

/-- A chart series as delivered on the wire: `{labels, values}`. -/
structure SeriesData where
  labels : List String
  values : List JsNum
deriving Repr, DecidableEq

/-- `data.stats` — every field may be absent in the JSON payload. -/
structure Stats where
  total_posts : Option JsNum
  avg_engagement : Option JsNum
  total_impressions : Option JsNum
  follower_count : Option JsNum
  total_likes : Option JsNum
  total_comments : Option JsNum
deriving Repr, DecidableEq

/-- The whole analysis payload stored in `window.currentAnalysisData`
(main page) / `currentData` (dashboard). -/
structure AnalysisData where
  stats : Stats
  engagement_data : Option SeriesData
  timing_data : Option SeriesData
deriving Repr, DecidableEq

/-- The failure both export entry points report through
`alert('エクスポートするデータがありません。'); return;` when no analysis
result has been stored — the spec's `EmptyResultError`. -/
inductive ExportError where
  | emptyResult
deriving Repr, DecidableEq

namespace Main

/-!  Embedding of `src/static/js/main.js`. -/

/-- `formatNumber` (main.js lines 216–223): numbers at or above one million
become `(num/1000000).toFixed(1) + 'M'`, those at or above one thousand
become `(num/1000).toFixed(1) + 'K'`, the rest print as is.  The division
is IEEE-754 double division of the value `man / 10^exp` by the scale —
i.e. the binary64 rounding of `man / (scale·10^exp)` — followed by
`toFixed(1)` (`divToFixed1`).  The branch guard `num >= 1000000` compares
values, i.e. `1000000·10^exp ≤ man`. -/
def formatNumber (q : JsNum) : String :=
  if 1000000 * 10 ^ q.exp ≤ q.man then
    tenthStr (divToFixed1 q.man (1000000 * 10 ^ q.exp)) ++ "M"
  else if 1000 * 10 ^ q.exp ≤ q.man then
    tenthStr (divToFixed1 q.man (1000 * 10 ^ q.exp)) ++ "K"
  else numStr q

/-- What `displayResults` (main.js lines 95–120) writes into the page:
the four stat card texts and whether each chart got (re)created. -/
structure Rendered where
  totalPosts : String
  avgEngagement : String
  totalImpressions : String
  followerCount : String
  engagementChartShown : Bool
  timingChartShown : Bool
deriving Repr, DecidableEq

/-- `x ? render(x) : '-'` / `x || '-'` on an optional stat: `undefined`
and `0` both fall back to `'-'`. -/
def renderOrDash (x : Option JsNum) (render : JsNum → String) : String :=
  match x with
  | none => "-"
  | some v => if v.man = 0 then "-" else render v

/-- `displayResults` (main.js lines 95–120): stat cards via truthiness
fallbacks (`total_posts || '-'`, `avg_engagement ? toFixed(2)+'%' : '-'`,
`total_impressions ? formatNumber(..) : '-'`, likewise follower count);
charts are created only when the corresponding series field is present. -/
def displayResults (d : AnalysisData) : Rendered :=
  { totalPosts := renderOrDash d.stats.total_posts numStr
    avgEngagement := renderOrDash d.stats.avg_engagement (fun v => toFixedStr v 2 ++ "%")
    totalImpressions := renderOrDash d.stats.total_impressions formatNumber
    followerCount := renderOrDash d.stats.follower_count formatNumber
    engagementChartShown := d.engagement_data.isSome
    timingChartShown := d.timing_data.isSome }

/-- One engagement row of the exported CSV (main.js line 245):
`labels[i] + ',' + values[i]`; when `values` is shorter than `labels`,
JavaScript interpolates the missing entry as `"undefined"`. -/
def seriesLine (ed : SeriesData) (i : Nat) : String :=
  ed.labels.getD i "" ++ "," ++
    (match ed.values[i]? with
     | some v => numStr v
     | none => "undefined")

/-- The engagement block of the export: one row per index of `labels`
(main.js lines 244–246). -/
def seriesLines (ed : SeriesData) : List String :=
  (List.range ed.labels.length).map (seriesLine ed)

/-- The lines of the CSV built by `exportToCSV` (main.js lines 233–247),
in order: header, four stat rows (`|| 0` fallbacks), and — only when
`engagement_data` is present — a blank line (from the leading `'\n'` of
`'\n日付,エンゲージメント率\n'`), the section header, and the series rows. -/
def csvLines (d : AnalysisData) : List String :=
  ["データ種別,値",
   "総投稿数," ++ numStr (jsOrNum d.stats.total_posts ⟨0, 0⟩),
   "平均エンゲージメント率," ++ numStr (jsOrNum d.stats.avg_engagement ⟨0, 0⟩) ++ "%",
   "総インプレッション," ++ numStr (jsOrNum d.stats.total_impressions ⟨0, 0⟩),
   "フォロワー数," ++ numStr (jsOrNum d.stats.follower_count ⟨0, 0⟩)]
  ++ (match d.engagement_data with
      | some ed => "" :: "日付,エンゲージメント率" :: seriesLines ed
      | none => [])

end Main

/-- Re-attach the `'\n'` terminator each `csv += '…\n'` statement wrote,
recovering the exact CSV string of the source. -/
def csvContent (lines : List String) : String :=
  String.join (lines.map (· ++ "\n"))

namespace Main

/-- `exportToCSV` (main.js lines 226–259).  `stored` is
`window.currentAnalysisData`; with no stored result the function alerts
(the spec's `EmptyResultError`) and returns before building anything.
Otherwise it downloads a file `sns_analysis_<today>.csv` holding the CSV
text; the `Except` result carries (filename, content) — an error carries
no file at all. -/
def exportToCSV (stored : Option AnalysisData) (today : String) :
    Except ExportError (String × String) :=
  match stored with
  | none => .error .emptyResult
  | some d => .ok ("sns_analysis_" ++ today ++ ".csv", csvContent (csvLines d))

/-- `exportToGoogleSheets` (main.js lines 262–293): with no stored result
it alerts and returns before any request; otherwise the stored data is
POSTed to `/api/export/sheets` (the payload is the data itself). -/
def exportToGoogleSheets (stored : Option AnalysisData) :
    Except ExportError AnalysisData :=
  match stored with
  | none => .error .emptyResult
  | some d => .ok d

/-- The analysis request form fields (`FormData.get` yields the string or
nothing, `getAll('analysis_type')` yields the checked boxes). -/
structure FormInput where
  platform : Option String
  username : Option String
  period : Option String
  analysis_types : List String
deriving Repr, DecidableEq

/-- The validation failure `handleFormSubmit` reports through an `alert`
and an early `return` — the spec's `InvalidRequestError`. -/
inductive RequestError where
  | invalidRequest
deriving Repr, DecidableEq

/-- The validation phase of `handleFormSubmit` (main.js lines 34–57):
`!platform || !username || !period` alerts and returns, then empty
`analysis_types` alerts and returns; only afterwards is the
`fetch('/api/analyze', …)` issued with the collected payload, which the
`.ok` result denotes. -/
def handleFormSubmit (fd : FormInput) : Except RequestError FormInput :=
  if jsFalsyStr fd.platform || jsFalsyStr fd.username || jsFalsyStr fd.period then
    .error .invalidRequest
  else if fd.analysis_types.length = 0 then
    .error .invalidRequest
  else
    .ok fd

end Main

namespace Dashboard

/-!  Embedding of `src/static/js/dashboard.js`. -/

/-- `formatNumber` (dashboard.js lines 362–369) — same abbreviation logic
as the main page's copy: binary64 division by the scale, then
`toFixed(1)`. -/
def formatNumber (q : JsNum) : String :=
  if 1000000 * 10 ^ q.exp ≤ q.man then
    tenthStr (divToFixed1 q.man (1000000 * 10 ^ q.exp)) ++ "M"
  else if 1000 * 10 ^ q.exp ≤ q.man then
    tenthStr (divToFixed1 q.man (1000 * 10 ^ q.exp)) ++ "K"
  else numStr q

/-- The dataset handed to the timing doughnut chart. -/
structure TimingChartConfig where
  labels : List String
  values : List JsNum
deriving Repr, DecidableEq

/-- `createTimingChartDashboard` (dashboard.js lines 193–244): returns
early when `timing_data` is absent; otherwise the chart shows
`labels.slice(0, 8)` / `data.slice(0, 8)` — only the top 8 buckets. -/
def createTimingChartDashboard (d : AnalysisData) : Option TimingChartConfig :=
  match d.timing_data with
  | none => none
  | some td => some ⟨td.labels.take 8, td.values.take 8⟩

/-- One engagement row of the dashboard export (dashboard.js line 404):
`labels[i] + ',' + (values[i] || 0)`. -/
def seriesLine (ed : SeriesData) (i : Nat) : String :=
  ed.labels.getD i "" ++ "," ++ numStr (jsOrNum ed.values[i]? ⟨0, 0⟩)

/-- The engagement block: one row per index of `labels`
(dashboard.js lines 402–405). -/
def seriesLines (ed : SeriesData) : List String :=
  (List.range ed.labels.length).map (seriesLine ed)

/-- The lines of the CSV built by `exportData` (dashboard.js lines
393–406): header `メトリック,値`, four stat rows (posts, likes, comments,
average engagement — no `%` sign), then, when `engagement_data` is
present, the blank line, the section header and the series rows.  No line
is derived from `timing_data`. -/
def csvLines (d : AnalysisData) : List String :=
  ["メトリック,値",
   "総投稿数," ++ numStr (jsOrNum d.stats.total_posts ⟨0, 0⟩),
   "総いいね数," ++ numStr (jsOrNum d.stats.total_likes ⟨0, 0⟩),
   "総コメント数," ++ numStr (jsOrNum d.stats.total_comments ⟨0, 0⟩),
   "平均エンゲージメント," ++ numStr (jsOrNum d.stats.avg_engagement ⟨0, 0⟩)]
  ++ (match d.engagement_data with
      | some ed => "" :: "日付,エンゲージメント" :: seriesLines ed
      | none => [])

/-- `exportData` (dashboard.js lines 387–418).  `stored` is `currentData`;
with no stored result it alerts (the spec's `EmptyResultError`) and
returns before building anything; otherwise it downloads
`sns_analysis_dashboard_<today>.csv` with the CSV text. -/
def exportData (stored : Option AnalysisData) (today : String) :
    Except ExportError (String × String) :=
  match stored with
  | none => .error .emptyResult
  | some d => .ok ("sns_analysis_dashboard_" ++ today ++ ".csv", csvContent (csvLines d))

end Dashboard

/-! ## Chart object lifecycle

`main.js` keeps the globals `engagementChart` / `timingChart` and
`dashboard.js` keeps `mainChart` / `timingChart`; every chart-creating
function follows the same pattern: `if (chartVar) chartVar.destroy();
chartVar = new Chart(ctx, …)`.  We model the two chart slots of a page,
recording every `new Chart` and `destroy()` call in an event trace so that
"live chart objects on a canvas" is expressible. -/

/-- The two chart canvases of a page (engagement/main line chart and the
timing chart). -/
inductive Canvas where
  | engagement
  | timing
deriving Repr, DecidableEq

/-- A constructor or destructor call on a chart object, identified by a
creation serial number. -/
inductive ChartEvent where
  | created (c : Canvas) (id : Nat)
  | destroyed (c : Canvas) (id : Nat)
deriving Repr, DecidableEq

/-- Page-global chart state: the two chart variables plus the full call
trace (`events`, oldest first). -/
structure ChartState where
  nextId : Nat
  engagementChart : Option Nat
  timingChart : Option Nat
  events : List ChartEvent
deriving Repr, DecidableEq

/-- Page load: both globals are `null`, nothing happened yet. -/
def ChartState.init : ChartState :=
  ⟨0, none, none, []⟩

/-- The global variable belonging to a canvas. -/
def chartVar (c : Canvas) (s : ChartState) : Option Nat :=
  match c with
  | .engagement => s.engagementChart
  | .timing => s.timingChart

/-- `if (chartVar) { chartVar.destroy(); }` — the destroy call this guard
emits. -/
def destroyEvents (c : Canvas) (cur : Option Nat) : List ChartEvent :=
  match cur with
  | none => []
  | some i => [.destroyed c i]

/-- `createEngagementChart` (main.js lines 123–169) /
`createMainChart` (dashboard.js lines 103–191): destroy the chart held in
the global, then store the newly constructed chart there. -/
def createEngagementChart (s : ChartState) : ChartState :=
  { nextId := s.nextId + 1
    engagementChart := some s.nextId
    timingChart := s.timingChart
    events := s.events ++ destroyEvents .engagement s.engagementChart
      ++ [.created .engagement s.nextId] }

/-- `createTimingChart` (main.js lines 172–213) /
`createTimingChartDashboard` (dashboard.js lines 193–244): same pattern on
the timing slot. -/
def createTimingChart (s : ChartState) : ChartState :=
  { nextId := s.nextId + 1
    engagementChart := s.engagementChart
    timingChart := some s.nextId
    events := s.events ++ destroyEvents .timing s.timingChart
      ++ [.created .timing s.nextId] }

/-- One call a rendering pass may make: create on one of the canvases, or
return early (the `if (data…) …` guards / `if (!ctx || …) return` guards
when the series is absent). -/
inductive ChartOp where
  | engagement
  | timing
  | skip
deriving Repr, DecidableEq

/-- Apply one call. -/
def applyOp : ChartOp → ChartState → ChartState
  | .engagement, s => createEngagementChart s
  | .timing, s => createTimingChart s
  | .skip, s => s

/-- Run a sequence of chart-creation calls. -/
def runOps : List ChartOp → ChartState → ChartState
  | [], s => s
  | op :: ops, s => runOps ops (applyOp op s)

/-- The chart objects live on canvas `c` after the trace `evs`: created
and not subsequently destroyed, in creation order. -/
def liveOn (c : Canvas) (evs : List ChartEvent) : List Nat :=
  evs.foldl
    (fun acc e =>
      match e with
      | .created c' i => if c' = c then acc ++ [i] else acc
      | .destroyed c' i => if c' = c then acc.filter (· ≠ i) else acc)
    []

/-- The most recently created chart on canvas `c` in the trace `evs`. -/
def lastCreated (c : Canvas) (evs : List ChartEvent) : Option Nat :=
  evs.foldl
    (fun acc e =>
      match e with
      | .created c' i => if c' = c then some i else acc
      | .destroyed _ _ => acc)
    none

/-! ## Spec-side characterisations and concrete sample payloads -/

/-- `n / scale` rounded to one decimal digit (half up), returned in tenths
— the arithmetic meaning of "`n/scale` rounded to 1 decimal digit". -/
def roundTenths (n scale : Nat) : Nat :=
  (10 * n + scale / 2) / scale

/-- The abbreviation scheme claim C9 describes, stated independently in
plain natural-number arithmetic: `n/1000000` to one decimal plus `M` from
one million up, `n/1000` to one decimal plus `K` from one thousand up,
plain decimal digits below. -/
def specAbbrev (n : Nat) : String :=
  if 1000000 ≤ n then tenthStr (roundTenths n 1000000) ++ "M"
  else if 1000 ≤ n then tenthStr (roundTenths n 1000) ++ "K"
  else toString n

/-- A form field is present: delivered and not the empty string. -/
def presentStr (o : Option String) : Prop :=
  ∃ s, o = some s ∧ s ≠ ""

/-- The chart-lifecycle invariant: on each canvas the live chart objects
are exactly the content of its global variable, and that variable holds
the most recently created chart. -/
def chartInv (s : ChartState) : Prop :=
  ∀ c, liveOn c s.events = (chartVar c s).toList ∧
    lastCreated c s.events = chartVar c s

/-- Sample payload for C1: all six stats delivered (likes 77, comments 88
distinctive), a two-point engagement series. -/
def exC1 : AnalysisData :=
  ⟨⟨some ⟨3, 0⟩, some ⟨125, 1⟩, some ⟨450, 0⟩, some ⟨120, 0⟩,
    some ⟨77, 0⟩, some ⟨88, 0⟩⟩,
   some ⟨["2024-01-01", "2024-01-02"], [⟨15, 1⟩, ⟨225, 2⟩]⟩,
   none⟩

/-- Sample payload for C2: average engagement 12.345 (three decimal
digits), a one-point engagement series. -/
def exC2 : AnalysisData :=
  ⟨⟨some ⟨3, 0⟩, some ⟨12345, 3⟩, some ⟨450, 0⟩, some ⟨120, 0⟩,
    none, none⟩,
   some ⟨["2024-01-01"], [⟨15, 1⟩]⟩,
   none⟩

/-- The timing histogram of the C6 sample: nine hour buckets, sorted
descending by count; `08:00` is the ninth (outside the top 8). -/
def timingC6 : SeriesData :=
  ⟨["18:00", "21:00", "12:00", "20:00", "19:00", "22:00", "15:00",
    "09:00", "08:00"],
   [⟨12, 0⟩, ⟨11, 0⟩, ⟨9, 0⟩, ⟨7, 0⟩, ⟨6, 0⟩, ⟨5, 0⟩, ⟨4, 0⟩,
    ⟨3, 0⟩, ⟨2, 0⟩]⟩

/-- Sample payload for C6: a full nine-bucket timing histogram. -/
def exC6 : AnalysisData :=
  ⟨⟨some ⟨3, 0⟩, some ⟨125, 1⟩, some ⟨450, 0⟩, some ⟨120, 0⟩,
    some ⟨40, 0⟩, some ⟨19, 0⟩⟩,
   none,
   some timingC6⟩

/-- Sample payload for C7: statistics computed as zero (`total_posts = 0`,
`avg_engagement = 0`), engagement series present, timing unset. -/
def exC7 : AnalysisData :=
  ⟨⟨some ⟨0, 0⟩, some ⟨0, 0⟩, some ⟨450, 0⟩, some ⟨120, 0⟩,
    none, none⟩,
   some ⟨["2024-01-01"], [⟨15, 1⟩]⟩,
   none⟩

/-- Sample payload for C8/C9. -/
def exC8 : AnalysisData :=
  ⟨⟨some ⟨3, 0⟩, some ⟨125, 1⟩, some ⟨2500000, 0⟩, some ⟨120, 0⟩,
    some ⟨40, 0⟩, some ⟨19, 0⟩⟩,
   some ⟨["2024-01-01"], [⟨15, 1⟩]⟩,
   none⟩

/-! ## Supporting lemmas -/

/-- An integral `JsNum` prints as its plain digits. -/
theorem numStr_nat (n : Nat) : numStr ⟨n, 0⟩ = toString n := rfl

/-- The `|| 0` fallback on an integral stat still prints the plain
digits. -/
theorem numStr_jsOr_nat (n : Nat) :
    numStr (jsOrNum (some (⟨n, 0⟩ : JsNum)) ⟨0, 0⟩) = toString n := by
  by_cases h0 : n = 0
  · subst h0; rfl
  · simp [jsOrNum, h0, numStr_nat]

/-- A form field fails the JavaScript falsiness test exactly when it is
present (delivered and nonempty). -/
theorem jsFalsyStr_eq_false_iff (o : Option String) :
    jsFalsyStr o = false ↔ presentStr o := by
  cases o with
  | none => simp [jsFalsyStr, presentStr]
  | some v => simp [jsFalsyStr, presentStr]

/-- A list starts with itself, whatever follows. -/
theorem headMatches_self_append (p extra : List Char) :
    headMatches (p ++ extra) p = true := by
  induction p with
  | nil => cases extra <;> rfl
  | cons a as ih => simp [headMatches, ih]

/-- A pattern matching at the head occurs as a substring. -/
theorem hasSubAux_of_headMatches {pat s : List Char}
    (h : headMatches s pat = true) : hasSubAux pat s = true := by
  cases s with
  | nil =>
    cases pat with
    | nil => rfl
    | cons b bs => simp [headMatches] at h
  | cons c cs => simp [hasSubAux, h]

/-- An occurrence survives prepending characters. -/
theorem hasSubAux_append_left (a : List Char) {pat s : List Char}
    (h : hasSubAux pat s = true) : hasSubAux pat (a ++ s) = true := by
  induction a with
  | nil => simpa using h
  | cons c cs ih => simp [hasSubAux, ih]

/-- A string occurs in any string built around it — in particular a date
occurs in a filename built by splicing it in. -/
theorem containsSub_middle (a t b : String) :
    containsSub (a ++ t ++ b) t = true := by
  unfold containsSub
  rw [String.data_append, String.data_append, List.append_assoc]
  exact hasSubAux_append_left a.data
    (hasSubAux_of_headMatches (headMatches_self_append t.data b.data))

/-- When `values` is as long as `labels`, the exported engagement block
pairs each label with its value, in label order. -/
theorem seriesLines_eq_zip (ed : SeriesData)
    (hlen : ed.values.length = ed.labels.length) :
    Main.seriesLines ed =
      (ed.labels.zip ed.values).map (fun p => p.1 ++ "," ++ numStr p.2) := by
  apply List.ext_getElem
  · simp [Main.seriesLines, hlen]
  · intro i h1 h2
    simp only [Main.seriesLines, List.getElem_map, List.getElem_range,
      List.getElem_zip]
    have hi : i < ed.labels.length := by simpa [Main.seriesLines] using h1
    have hv : i < ed.values.length := by omega
    rw [Main.seriesLine, List.getD_eq_getElem _ _ hi,
      List.getElem?_eq_getElem hv]

/-- `log2fuel` with enough fuel computes the floor of the base-2
logarithm: `2 ^ e ≤ k < 2 ^ (e + 1)`. -/
theorem log2fuel_spec (f : Nat) : ∀ k : Nat, 0 < k → k < 2 ^ f →
    2 ^ log2fuel f k ≤ k ∧ k < 2 ^ (log2fuel f k + 1) := by
  induction f with
  | zero => intro k h1 h2; simp at h2; omega
  | succ f ih =>
    intro k h1 h2
    rw [log2fuel]
    by_cases hk : k ≤ 1
    · have hk1 : k = 1 := by omega
      subst hk1; simp
    · rw [if_neg hk]
      have h2' : k / 2 < 2 ^ f := by
        rw [pow_succ] at h2
        omega
      have h1' : 0 < k / 2 := by omega
      obtain ⟨ha, hb⟩ := ih (k / 2) h1' h2'
      constructor
      · rw [pow_succ]
        omega
      · rw [pow_succ, pow_succ]
        rw [pow_succ] at hb
        omega

/-- Rounding to even lands within half a unit: `|1000·r - a| ≤ 500`,
stated additively. -/
theorem roundEven_bounds_1000 (a : Nat) :
    2 * a ≤ 2000 * roundEven a 1000 + 1000 ∧
    2000 * roundEven a 1000 ≤ 2 * a + 1000 := by
  unfold roundEven
  split_ifs <;> omega

/-- Rounding to even lands within half a unit: `|10^6·r - a| ≤ 5·10^5`,
stated additively. -/
theorem roundEven_bounds_1000000 (a : Nat) :
    2 * a ≤ 2000000 * roundEven a 1000000 + 1000000 ∧
    2000000 * roundEven a 1000000 ≤ 2 * a + 1000000 := by
  unfold roundEven
  split_ifs <;> omega

/-- Away from exact midpoints, `(n/1000).toFixed(1)` in binary64 agrees
with the exact decimal half-up rounding of `n/1000` to tenths: the double
sits within `2^(e-53)` of the true quotient, far closer than the `1/2000`
gap a non-tie value keeps from the rounding boundary. -/
theorem divToFixed1_1000 (n : Nat) (h1 : 1000 ≤ n) (h2 : n < 1000000)
    (h3 : n % 100 ≠ 50) : divToFixed1 n 1000 = roundTenths n 1000 := by
  unfold divToFixed1 doubleDiv roundTenths
  have hk1 : 0 < n / 1000 := by omega
  have hk2 : n / 1000 < 2 ^ 64 := by
    have : n / 1000 ≤ 999 := by omega
    have : (999 : Nat) < 2 ^ 64 := by norm_num
    omega
  obtain ⟨he1, he2⟩ := log2fuel_spec 64 (n / 1000) hk1 hk2
  set e := log2fuel 64 (n / 1000) with hedef
  have he9 : e ≤ 9 := by
    by_contra hcon
    have h10 : 10 ≤ e := by omega
    have : (2 : Nat) ^ 10 ≤ 2 ^ e := Nat.pow_le_pow_right (by norm_num) h10
    have h1024 : (1024 : Nat) ≤ 2 ^ e := by norm_num at this ⊢; omega
    omega
  rw [if_pos (by omega : e ≤ 52)]
  set s := 52 - e with hsdef
  have hs43 : 43 ≤ s := by omega
  set X := (2 : Nat) ^ s with hXdef
  have hX : 8796093022208 ≤ X := by
    rw [hXdef]
    calc (8796093022208 : Nat) = 2 ^ 43 := by norm_num
    _ ≤ 2 ^ s := Nat.pow_le_pow_right (by norm_num) hs43
  set m := roundEven (n * X) 1000 with hmdef
  have hb1 : 2 * (n * X) ≤ 2000 * m + 1000 := (roundEven_bounds_1000 (n * X)).1
  have hb2 : 2000 * m ≤ 2 * (n * X) + 1000 := (roundEven_bounds_1000 (n * X)).2
  have hpow : (2 : Nat) ^ (s + 1) = 2 * X := by
    rw [hXdef, pow_succ]; ring
  have hm1 : (2000 * ((10 * n + 500) / 1000) + 20) * X ≤ (20 * n + 1000) * X :=
    Nat.mul_le_mul_right X (by omega)
  have hm2 : (20 * n + 1000) * X ≤ (2000 * ((10 * n + 500) / 1000) + 1980) * X :=
    Nat.mul_le_mul_right X (by omega)
  simp only []
  rw [hpow, ← hXdef]
  apply Nat.div_eq_of_lt_le
  · have g : (10 * n + 500) / 1000 * (2 * X) = 2 * ((10 * n + 500) / 1000 * X) := by ring
    rw [g]
    nlinarith [hm1, hb1, hX]
  · have g : ((10 * n + 500) / 1000 + 1) * (2 * X) =
        2 * ((10 * n + 500) / 1000 * X) + 2 * X := by ring
    rw [g]
    nlinarith [hm2, hb2, hX]

/-- Away from exact midpoints, `(n/10^6).toFixed(1)` in binary64 agrees
with the exact decimal half-up rounding of `n/10^6` to tenths, for `n`
below `2^33·10^6` (so the double's spacing stays below the boundary
gap). -/
theorem divToFixed1_1000000 (n : Nat) (h1 : 1000000 ≤ n)
    (h2 : n < 8589934592000000) (h3 : n % 100000 ≠ 50000) :
    divToFixed1 n 1000000 = roundTenths n 1000000 := by
  unfold divToFixed1 doubleDiv roundTenths
  have hk1 : 0 < n / 1000000 := by omega
  have hk2 : n / 1000000 < 2 ^ 64 := by
    have ha : n / 1000000 ≤ 8589934591 := by omega
    have hb : (8589934591 : Nat) < 2 ^ 64 := by norm_num
    omega
  obtain ⟨he1, he2⟩ := log2fuel_spec 64 (n / 1000000) hk1 hk2
  set e := log2fuel 64 (n / 1000000) with hedef
  have he32 : e ≤ 32 := by
    by_contra hcon
    have h33 : 33 ≤ e := by omega
    have hpp : (2 : Nat) ^ 33 ≤ 2 ^ e := Nat.pow_le_pow_right (by norm_num) h33
    have hknum : n / 1000000 ≤ 8589934591 := by omega
    have : (8589934592 : Nat) ≤ 2 ^ e := by norm_num at hpp ⊢; omega
    omega
  rw [if_pos (by omega : e ≤ 52)]
  set s := 52 - e with hsdef
  have hs20 : 20 ≤ s := by omega
  set X := (2 : Nat) ^ s with hXdef
  have hX : 1048576 ≤ X := by
    rw [hXdef]
    calc (1048576 : Nat) = 2 ^ 20 := by norm_num
    _ ≤ 2 ^ s := Nat.pow_le_pow_right (by norm_num) hs20
  set m := roundEven (n * X) 1000000 with hmdef
  have hb1 : 2 * (n * X) ≤ 2000000 * m + 1000000 :=
    (roundEven_bounds_1000000 (n * X)).1
  have hb2 : 2000000 * m ≤ 2 * (n * X) + 1000000 :=
    (roundEven_bounds_1000000 (n * X)).2
  have hpow : (2 : Nat) ^ (s + 1) = 2 * X := by
    rw [hXdef, pow_succ]; ring
  have hm1 : (2000000 * ((10 * n + 500000) / 1000000) + 20) * X ≤
      (20 * n + 1000000) * X :=
    Nat.mul_le_mul_right X (by omega)
  have hm2 : (20 * n + 1000000) * X ≤
      (2000000 * ((10 * n + 500000) / 1000000) + 1999980) * X :=
    Nat.mul_le_mul_right X (by omega)
  simp only []
  rw [hpow, ← hXdef]
  apply Nat.div_eq_of_lt_le
  · have g : (10 * n + 500000) / 1000000 * (2 * X) =
        2 * ((10 * n + 500000) / 1000000 * X) := by ring
    rw [g]
    nlinarith [hm1, hb1, hX]
  · have g : ((10 * n + 500000) / 1000000 + 1) * (2 * X) =
        2 * ((10 * n + 500000) / 1000000 * X) + 2 * X := by ring
    rw [g]
    nlinarith [hm2, hb2, hX]

/-- `formatNumber` on a whole number, with the guards and scales
simplified (`10^exp = 1`). -/
theorem formatNumber_nat (n : Nat) :
    Main.formatNumber ⟨n, 0⟩ =
      if 1000000 ≤ n then tenthStr (divToFixed1 n 1000000) ++ "M"
      else if 1000 ≤ n then tenthStr (divToFixed1 n 1000) ++ "K"
      else toString n := by
  unfold Main.formatNumber
  norm_num [numStr_nat]

/-- Unfold the live-chart computation over an appended trace. -/
theorem liveOn_append (c : Canvas) (evs more : List ChartEvent) :
    liveOn c (evs ++ more) =
      more.foldl
        (fun acc e =>
          match e with
          | .created c' i => if c' = c then acc ++ [i] else acc
          | .destroyed c' i => if c' = c then acc.filter (· ≠ i) else acc)
        (liveOn c evs) := by
  unfold liveOn
  rw [List.foldl_append]

/-- Unfold the most-recently-created computation over an appended trace. -/
theorem lastCreated_append (c : Canvas) (evs more : List ChartEvent) :
    lastCreated c (evs ++ more) =
      more.foldl
        (fun acc e =>
          match e with
          | .created c' i => if c' = c then some i else acc
          | .destroyed _ _ => acc)
        (lastCreated c evs) := by
  unfold lastCreated
  rw [List.foldl_append]

/-- Each chart-creation call preserves the lifecycle invariant: the
destroy-before-create pattern leaves exactly the new chart live and stored
in the global. -/
theorem chartInv_applyOp (op : ChartOp) (s : ChartState) (h : chartInv s) :
    chartInv (applyOp op s) := by
  cases op with
  | skip => exact h
  | engagement =>
    intro c
    obtain ⟨hl, hc⟩ := h c
    cases c with
    | engagement =>
      constructor
      · rw [applyOp, createEngagementChart]
        simp only [List.append_assoc]
        rw [liveOn_append]
        cases hv : s.engagementChart with
        | none => simp_all [destroyEvents, chartVar]
        | some i => simp_all [destroyEvents, chartVar, List.filter]
      · rw [applyOp, createEngagementChart]
        simp only [List.append_assoc]
        rw [lastCreated_append]
        cases hv : s.engagementChart with
        | none => simp_all [destroyEvents, chartVar]
        | some i => simp_all [destroyEvents, chartVar]
    | timing =>
      constructor
      · rw [applyOp, createEngagementChart]
        simp only [List.append_assoc]
        rw [liveOn_append]
        cases hv : s.engagementChart with
        | none => simp_all [destroyEvents, chartVar]
        | some i => simp_all [destroyEvents, chartVar]
      · rw [applyOp, createEngagementChart]
        simp only [List.append_assoc]
        rw [lastCreated_append]
        cases hv : s.engagementChart with
        | none => simp_all [destroyEvents, chartVar]
        | some i => simp_all [destroyEvents, chartVar]
  | timing =>
    intro c
    obtain ⟨hl, hc⟩ := h c
    cases c with
    | engagement =>
      constructor
      · rw [applyOp, createTimingChart]
        simp only [List.append_assoc]
        rw [liveOn_append]
        cases hv : s.timingChart with
        | none => simp_all [destroyEvents, chartVar]
        | some i => simp_all [destroyEvents, chartVar]
      · rw [applyOp, createTimingChart]
        simp only [List.append_assoc]
        rw [lastCreated_append]
        cases hv : s.timingChart with
        | none => simp_all [destroyEvents, chartVar]
        | some i => simp_all [destroyEvents, chartVar]
    | timing =>
      constructor
      · rw [applyOp, createTimingChart]
        simp only [List.append_assoc]
        rw [liveOn_append]
        cases hv : s.timingChart with
        | none => simp_all [destroyEvents, chartVar]
        | some i => simp_all [destroyEvents, chartVar, List.filter]
      · rw [applyOp, createTimingChart]
        simp only [List.append_assoc]
        rw [lastCreated_append]
        cases hv : s.timingChart with
        | none => simp_all [destroyEvents, chartVar]
        | some i => simp_all [destroyEvents, chartVar]

/-- The lifecycle invariant is preserved by any call sequence. -/
theorem chartInv_runOps (ops : List ChartOp) (s : ChartState)
    (h : chartInv s) : chartInv (runOps ops s) := by
  induction ops generalizing s with
  | nil => exact h
  | cons op ops ih => exact ih _ (chartInv_applyOp op s h)

/-! ## Claims -/

/-- Claim C1, counterexample.  The CSV built by `exportToCSV` does not
match the claimed row order: with all six stats delivered (likes 77,
comments 88), the export text contains neither the likes nor the comments
value anywhere — only four summary rows are written — and the row right
after the blank separator is the section header `日付,エンゲージメント率`,
not the first engagement point (which only comes one row later). -/
theorem exportToCSV_omits_like_and_comment_stats :
    exC1.stats.total_likes = some ⟨77, 0⟩ ∧
    exC1.stats.total_comments = some ⟨88, 0⟩ ∧
    containsSub (csvContent (Main.csvLines exC1)) "77" = false ∧
    containsSub (csvContent (Main.csvLines exC1)) "88" = false ∧
    (Main.csvLines exC1).getD 5 "" = "" ∧
    (Main.csvLines exC1).getD 6 "" = "日付,エンゲージメント率" ∧
    (Main.csvLines exC1).getD 7 "" = "2024-01-01,1.5" := by
  decide

/-- Claim C1, amended.  For every result with an engagement series (whose
`values` run as long as its `labels`), the exported rows are, in order:
the header, exactly four summary rows — totalPosts, avgEngagementRate,
totalImpressions, followerCount; totalLikes and totalComments are not
exported — then the blank separator, then the section header
`日付,エンゲージメント率`, then one row per series point in label order,
and nothing else. -/
theorem exportToCSV_row_order (d : AnalysisData) (ed : SeriesData)
    (h : d.engagement_data = some ed)
    (hlen : ed.values.length = ed.labels.length) :
    Main.csvLines d =
      ["データ種別,値",
       "総投稿数," ++ numStr (jsOrNum d.stats.total_posts ⟨0, 0⟩),
       "平均エンゲージメント率," ++
         numStr (jsOrNum d.stats.avg_engagement ⟨0, 0⟩) ++ "%",
       "総インプレッション," ++ numStr (jsOrNum d.stats.total_impressions ⟨0, 0⟩),
       "フォロワー数," ++ numStr (jsOrNum d.stats.follower_count ⟨0, 0⟩),
       "",
       "日付,エンゲージメント率"]
      ++ (ed.labels.zip ed.values).map (fun p => p.1 ++ "," ++ numStr p.2) := by
  simp [Main.csvLines, h, seriesLines_eq_zip ed hlen]

/-- Claim C1, witness: the amended row order evaluated on the sample
payload. -/
theorem exportToCSV_row_order_witness :
    Main.csvLines exC1 =
      ["データ種別,値", "総投稿数,3", "平均エンゲージメント率,12.5%",
       "総インプレッション,450", "フォロワー数,120", "",
       "日付,エンゲージメント率", "2024-01-01,1.5", "2024-01-02,2.25"] :=
  (exportToCSV_row_order exC1
    ⟨["2024-01-01", "2024-01-02"], [⟨15, 1⟩, ⟨225, 2⟩]⟩ rfl rfl).trans
    (by decide)

/-- Claim C2, counterexample.  An exported percentage is not rendered with
exactly two decimal digits: with average engagement 12.345 the export row
reads `平均エンゲージメント率,12.345%` (three decimals — the raw number is
interpolated, no `toFixed(2)` on the export path), and an engagement series
row carries its raw value with no `%` at all. -/
theorem exportToCSV_percent_not_two_decimals :
    (Main.csvLines exC2).getD 2 "" = "平均エンゲージメント率,12.345%" ∧
    twoDecimalPercent "平均エンゲージメント率,12.345%" = false ∧
    (Main.csvLines exC2).getD 7 "" = "2024-01-01,1.5" := by
  decide

/-- Claim C2, amended.  In the exported rows the average-engagement
percentage is the raw number followed by `%` (no two-decimal
normalisation — that applies only to the displayed value, which is
`toFixed(2) + '%'`), series rows carry the raw value with no `%`, and
count values are rendered as plain integers with no thousands
separators. -/
theorem exportToCSV_numeric_rendering (d : AnalysisData) (v : JsNum)
    (n : Nat) (hv : d.stats.avg_engagement = some v) (hv0 : v.man ≠ 0)
    (hp : d.stats.total_posts = some ⟨n, 0⟩) :
    (Main.csvLines d).getD 2 "" = "平均エンゲージメント率," ++ numStr v ++ "%" ∧
    (Main.displayResults d).avgEngagement = toFixedStr v 2 ++ "%" ∧
    (Main.csvLines d).getD 1 "" = "総投稿数," ++ toString n := by
  refine ⟨?_, ?_, ?_⟩
  · simp [Main.csvLines, hv, jsOrNum, hv0]
  · simp [Main.displayResults, Main.renderOrDash, hv, hv0]
  · simp [Main.csvLines, hp, numStr_jsOr_nat]

/-- Claim C2, witness: the amended rendering evaluated on the sample
payload (average engagement 12.345, three posts). -/
theorem exportToCSV_numeric_rendering_witness :
    (Main.csvLines exC2).getD 2 "" =
      "平均エンゲージメント率," ++ numStr ⟨12345, 3⟩ ++ "%" ∧
    (Main.displayResults exC2).avgEngagement = toFixedStr ⟨12345, 3⟩ 2 ++ "%" ∧
    (Main.csvLines exC2).getD 1 "" = "総投稿数," ++ toString 3 :=
  exportToCSV_numeric_rendering exC2 ⟨12345, 3⟩ 3 rfl (by decide) rfl

/-- Claim C3.  Every export entry point — the CSV export, the spreadsheet
export and the dashboard export — fails with the empty-result error
exactly when the stored result is null/absent; the error result carries no
file, so no (empty) file is ever silently produced, while with a stored
result present the CSV export does build its file. -/
theorem export_empty_result_error (stored : Option AnalysisData)
    (today : String) :
    (Main.exportToCSV stored today = .error .emptyResult ↔ stored = none) ∧
    (Main.exportToGoogleSheets stored = .error .emptyResult ↔
      stored = none) ∧
    (Dashboard.exportData stored today = .error .emptyResult ↔
      stored = none) ∧
    (∀ d, stored = some d →
      Main.exportToCSV stored today =
        .ok ("sns_analysis_" ++ today ++ ".csv",
          csvContent (Main.csvLines d))) := by
  cases stored <;>
    simp [Main.exportToCSV, Main.exportToGoogleSheets, Dashboard.exportData]

/-- Claim C3, witness: with no stored result the export errors; with the
sample payload stored it produces the file. -/
theorem export_empty_result_error_witness :
    Main.exportToCSV none "2026-10-11" = .error .emptyResult ∧
    Main.exportToCSV (some exC1) "2026-10-11" =
      .ok ("sns_analysis_" ++ "2026-10-11" ++ ".csv",
        csvContent (Main.csvLines exC1)) :=
  ⟨(export_empty_result_error none "2026-10-11").1.mpr rfl,
   (export_empty_result_error (some exC1) "2026-10-11").2.2.2 exC1 rfl⟩

/-- Claim C4.  The form submission succeeds — i.e. the `/api/analyze`
fetch is issued with the collected payload — exactly when platform,
username and period are present (delivered, nonempty) and at least one
analysis type is selected; in every other case it fails with the
invalid-request error before any fetch happens. -/
theorem handleFormSubmit_validation (fd : Main.FormInput) :
    (Main.handleFormSubmit fd = .ok fd ↔
      (presentStr fd.platform ∧ presentStr fd.username ∧
        presentStr fd.period ∧ fd.analysis_types ≠ [])) ∧
    (Main.handleFormSubmit fd = .error .invalidRequest ↔
      ¬(presentStr fd.platform ∧ presentStr fd.username ∧
        presentStr fd.period ∧ fd.analysis_types ≠ [])) := by
  unfold Main.handleFormSubmit
  rcases h1 : jsFalsyStr fd.platform with h1' | h1' <;>
  rcases h2 : jsFalsyStr fd.username with _ | _ <;>
  rcases h3 : jsFalsyStr fd.period with _ | _ <;>
  rcases h4 : fd.analysis_types with _ | ⟨a, as⟩ <;>
    simp_all [← jsFalsyStr_eq_false_iff]

/-- Claim C5.  Exporting the same stored result twice yields the identical
CSV text, independent of the invocation date: the exported row sequence is
a pure function of the `AnalysisData` (namely `csvContent ∘ csvLines`). -/
theorem exportToCSV_deterministic (d : AnalysisData) (t₁ t₂ : String) :
    Except.map Prod.snd (Main.exportToCSV (some d) t₁) =
      Except.map Prod.snd (Main.exportToCSV (some d) t₂) ∧
    Except.map Prod.snd (Main.exportToCSV (some d) t₁) =
      .ok (csvContent (Main.csvLines d)) :=
  ⟨rfl, rfl⟩

/-- Claim C6, counterexample.  The full timing histogram is not included
in the export: on a nine-bucket histogram whose ninth label is `08:00`,
neither the dashboard export nor the main CSV export mentions that bucket
anywhere — the exports contain no timing rows at all. -/
theorem timing_histogram_not_exported :
    exC6.timing_data = some timingC6 ∧
    "08:00" ∈ timingC6.labels ∧
    containsSub (csvContent (Dashboard.csvLines exC6)) "08:00" = false ∧
    containsSub (csvContent (Main.csvLines exC6)) "08:00" = false := by
  decide

/-- Claim C6, amended.  The top-8 truncation applies only to the displayed
view — the dashboard timing chart shows `labels.slice(0,8)` /
`values.slice(0,8)` of the full histogram — and the full histogram remains
in the stored result, but the CSV export contains no timing rows: its
lines do not depend on `timing_data` at all. -/
theorem timing_truncation_display_only (d : AnalysisData) (td : SeriesData)
    (h : d.timing_data = some td) :
    Dashboard.createTimingChartDashboard d =
      some ⟨td.labels.take 8, td.values.take 8⟩ ∧
    (∀ x, Dashboard.csvLines { d with timing_data := x } =
      Dashboard.csvLines d) ∧
    (∀ t, Except.map (fun p => p.2) (Dashboard.exportData (some d) t) =
      .ok (csvContent (Dashboard.csvLines d))) := by
  refine ⟨?_, fun x => rfl, fun t => rfl⟩
  simp [Dashboard.createTimingChartDashboard, h]

/-- Claim C6, witness: on the nine-bucket sample the chart shows the first
eight buckets and the export lines are unchanged when the histogram is
removed. -/
theorem timing_truncation_display_only_witness :
    Dashboard.createTimingChartDashboard exC6 =
      some ⟨["18:00", "21:00", "12:00", "20:00", "19:00", "22:00", "15:00",
             "09:00"],
            [⟨12, 0⟩, ⟨11, 0⟩, ⟨9, 0⟩, ⟨7, 0⟩, ⟨6, 0⟩, ⟨5, 0⟩, ⟨4, 0⟩,
             ⟨3, 0⟩]⟩ ∧
    Dashboard.csvLines { exC6 with timing_data := none } =
      Dashboard.csvLines exC6 :=
  ⟨((timing_truncation_display_only exC6 timingC6 rfl).1).trans (by decide),
   (timing_truncation_display_only exC6 timingC6 rfl).2.1 none⟩

/-- Claim C7, counterexample.  A statistic computed as zero is not shown
as the value 0: with `total_posts = 0` delivered, `displayResults` renders
the stat card as `"-"` (the `|| '-'` fallback treats 0 as falsy), although
0 itself would print as `"0"` — so the consumer does not distinguish
"computed as zero" from "not requested". -/
theorem zero_stat_rendered_as_dash :
    exC7.stats.total_posts = some ⟨0, 0⟩ ∧
    (Main.displayResults exC7).totalPosts = "-" ∧
    numStr ⟨0, 0⟩ = "0" ∧ "-" ≠ "0" := by
  decide

/-- Claim C7, amended.  For series fields the consumer does distinguish
unset from present: a chart is created exactly when the series field is
present.  For statistics it does not: an absent stat and a stat delivered
as zero are both rendered as `"-"`. -/
theorem consumer_unset_vs_zero (d : AnalysisData) :
    ((Main.displayResults d).engagementChartShown =
      d.engagement_data.isSome) ∧
    ((Main.displayResults d).timingChartShown = d.timing_data.isSome) ∧
    (d.stats.total_posts = none → (Main.displayResults d).totalPosts = "-") ∧
    (∀ v, d.stats.total_posts = some v → v.man = 0 →
      (Main.displayResults d).totalPosts = "-") := by
  refine ⟨rfl, rfl, ?_, ?_⟩
  · intro h; simp [Main.displayResults, Main.renderOrDash, h]
  · intro v h hv; simp [Main.displayResults, Main.renderOrDash, h, hv]

/-- Claim C7, witness: on the sample payload the engagement chart is
created, the timing chart is not, and the zero post count renders as
`"-"`. -/
theorem consumer_unset_vs_zero_witness :
    (Main.displayResults exC7).engagementChartShown =
      exC7.engagement_data.isSome ∧
    (Main.displayResults exC7).timingChartShown =
      exC7.timing_data.isSome ∧
    (Main.displayResults exC7).totalPosts = "-" :=
  ⟨(consumer_unset_vs_zero exC7).1, (consumer_unset_vs_zero exC7).2.1,
   (consumer_unset_vs_zero exC7).2.2.2 ⟨0, 0⟩ rfl rfl⟩

/-- Claim C8, counterexample.  Not every CSV export starts with the header
`データ種別,値`: the dashboard export's first row is `メトリック,値`. -/
theorem dashboard_csv_header_differs :
    (Dashboard.csvLines exC8).getD 0 "" = "メトリック,値" ∧
    "メトリック,値" ≠ "データ種別,値" := by
  decide

/-- Claim C8, amended.  Each CSV export is comma-separated text whose
first row is a two-column header — `データ種別,値` for the main-page
export, `メトリック,値` for the dashboard export — and each downloaded
file's name (`sns_analysis_<date>.csv`, resp.
`sns_analysis_dashboard_<date>.csv`) contains the current date. -/
theorem csv_export_header_and_filename (d : AnalysisData) (t : String) :
    Main.exportToCSV (some d) t =
      .ok ("sns_analysis_" ++ t ++ ".csv", csvContent (Main.csvLines d)) ∧
    (Main.csvLines d).getD 0 "" = "データ種別,値" ∧
    containsSub ("sns_analysis_" ++ t ++ ".csv") t = true ∧
    Dashboard.exportData (some d) t =
      .ok ("sns_analysis_dashboard_" ++ t ++ ".csv",
        csvContent (Dashboard.csvLines d)) ∧
    (Dashboard.csvLines d).getD 0 "" = "メトリック,値" ∧
    containsSub ("sns_analysis_dashboard_" ++ t ++ ".csv") t = true :=
  ⟨rfl, rfl, containsSub_middle _ t _, rfl, rfl, containsSub_middle _ t _⟩

/-- Claim C9, counterexample.  `formatNumber` does not return `n/1000`
rounded to one decimal digit under any uniform decimal tie rule: the
division happens in IEEE-754 doubles, so at the midpoint 4050 the double
`4050/1000 = 4.04999…` renders `"4.0K"` (half-up — the claim-side
`specAbbrev` — says `"4.1K"`), while at the midpoint 1050 the double
`1050/1000 = 1.05000…04` renders `"1.1K"` (half-down/half-even would say
`"1.0K"`). -/
theorem formatNumber_tie_follows_double_bits :
    Main.formatNumber ⟨4050, 0⟩ = "4.0K" ∧
    Main.formatNumber ⟨1050, 0⟩ = "1.1K" ∧
    specAbbrev 4050 = "4.1K" ∧
    Main.formatNumber ⟨4050, 0⟩ ≠ specAbbrev 4050 := by
  decide

/-- Claim C9, amended.  For every whole number `n`, `formatNumber` (both
copies) returns the plain decimal string below 1000; at or above 1000
(resp. one million) it returns `(n/1000).toFixed(1) + 'K'` (resp.
`(n/1000000).toFixed(1) + 'M'`) computed in IEEE-754 double arithmetic,
which equals `n/1000` (resp. `n/1000000`) rounded half-up to one decimal
digit at every input that is not an exact midpoint between tenths (for the
`M` branch: with `n` below `2^33·10^6`, where the double spacing stays
below the rounding-boundary gap); and the CSV export never applies this
abbreviation — an impressions count is exported as its plain digits. -/
theorem formatNumber_nontie_spec (n : Nat) :
    (n < 1000 → Main.formatNumber ⟨n, 0⟩ = specAbbrev n) ∧
    (1000 ≤ n → n < 1000000 → n % 100 ≠ 50 →
      Main.formatNumber ⟨n, 0⟩ = specAbbrev n) ∧
    (1000000 ≤ n → n < 8589934592000000 → n % 100000 ≠ 50000 →
      Main.formatNumber ⟨n, 0⟩ = specAbbrev n) ∧
    Dashboard.formatNumber ⟨n, 0⟩ = Main.formatNumber ⟨n, 0⟩ ∧
    (∀ d : AnalysisData, d.stats.total_impressions = some ⟨n, 0⟩ →
      (Main.csvLines d).getD 3 "" = "総インプレッション," ++ toString n) := by
  refine ⟨?_, ?_, ?_, rfl, ?_⟩
  · intro h
    rw [formatNumber_nat]
    unfold specAbbrev
    split_ifs with g1 g2
    · exact absurd g1 (by omega)
    · exact absurd g2 (by omega)
    · rfl
  · intro ha hb hc
    rw [formatNumber_nat]
    unfold specAbbrev
    split_ifs with g1
    · exact absurd g1 (by omega)
    · rw [divToFixed1_1000 n ha hb hc]
  · intro ha hb hc
    rw [formatNumber_nat]
    unfold specAbbrev
    rw [if_pos ha, if_pos ha, divToFixed1_1000000 n ha hb hc]
  · intro d hd
    simp [Main.csvLines, hd, numStr_jsOr_nat]

/-- Claim C9, witness: 2.5 million impressions (not a midpoint) abbreviate
to `2.5M` on the display path while the export row keeps the plain
digits. -/
theorem formatNumber_nontie_spec_witness :
    Main.formatNumber ⟨2500000, 0⟩ = specAbbrev 2500000 ∧
    specAbbrev 2500000 = "2.5M" ∧
    (Main.csvLines exC8).getD 3 "" = "総インプレッション," ++ toString 2500000 :=
  ⟨(formatNumber_nontie_spec 2500000).2.2.1 (by decide) (by decide)
      (by decide),
   by decide,
   (formatNumber_nontie_spec 2500000).2.2.2.2 exC8 rfl⟩

/-- Claim C10.  After any sequence of chart-creation calls from page load,
each canvas has at most one live chart object; the live charts on a canvas
are exactly the content of its global variable, and that variable holds
the most recently created chart on the canvas. -/
theorem chart_canvas_single_live_chart (ops : List ChartOp) (c : Canvas) :
    (liveOn c (runOps ops ChartState.init).events).length ≤ 1 ∧
    liveOn c (runOps ops ChartState.init).events =
      (chartVar c (runOps ops ChartState.init)).toList ∧
    lastCreated c (runOps ops ChartState.init).events =
      chartVar c (runOps ops ChartState.init) := by
  have h0 : chartInv ChartState.init := by
    intro c; cases c <;> exact ⟨rfl, rfl⟩
  obtain ⟨hl, hc⟩ := chartInv_runOps ops ChartState.init h0 c
  refine ⟨?_, hl, hc⟩
  rw [hl]
  cases chartVar c (runOps ops ChartState.init) <;> simp
